import Mathlib

/-!
Verification of the `vera` book-record HTTP service (src/main.go).

The Go program is a CRUD service over a Postgres `books` table.  We embed the
request-handling and persistence-mapping layer shallowly:

* the database is an external collaborator, modelled as an explicit state
  (`DB`): a list of rows, the next SERIAL id, and an abstract clock tick used
  for `NOW()`; every mutating SQL statement reads the current tick and the
  tick strictly increases with each mutating statement;
* driver/connectivity failures are injected through explicit `Option String`
  fault parameters (the `String` is the driver's error text), one per database
  round trip issued by a handler; a row-scan failure takes the same
  `respondInternalError` path as the query failure and is collapsed into it;
  a driver failure during result iteration in List is separate: `rows.Next()`
  then returns false early and the error is visible only through `rows.Err()`,
  which the source never checks, so the loop ends silently after the rows read
  so far (`listBooks`' `iterFault` parameter: the number of rows delivered
  before the failure, and the never-read error text);
* the JSON request body's decode result is the inductive `Body`: either the
  decoder errors (`malformed`) or it yields a `bookPayload` whose absent
  fields are Go zero values, i.e. empty strings;
* Go's `[]Book` distinguishes the nil slice from a non-nil slice, and
  `encoding/json` serialises the nil slice as `null`; `GoSlice` keeps that
  distinction;
* each handler returns the HTTP response it writes, the server-side log lines
  it emits, the list of SQL statements it issued, and the resulting database
  state (`HResult`).
-/

namespace Vera

/-- A persisted book row (`Book` in main.go).  Timestamps are abstract clock
ticks; their JSON rendering keeps the tick in a `Json.tstamp` node. -/
structure Book where
  id : Int
  title : String
  author : String
  created_at : Nat
  updated_at : Nat
deriving Repr, DecidableEq

/-- The decoded request body (`bookPayload` in main.go): either
`json.Decoder.Decode` fails, or it yields the two string fields, absent
fields decoding to the empty string. -/
inductive Body where
  | malformed
  | payload (title author : String)
deriving Repr, DecidableEq

/-- JSON values, as written by `encoding/json`.  `tstamp` stands for the
RFC3339 rendering of an abstract clock tick. -/
inductive Json where
  | null
  | str (s : String)
  | num (n : Int)
  | tstamp (t : Nat)
  | arr (xs : List Json)
  | obj (fs : List (String × Json))
deriving Repr

/-- A Go slice: `nil` (the zero value `var books []Book`) or a non-nil slice
holding a list of elements. -/
inductive GoSlice (α : Type) where
  | nil
  | mk (l : List α)
deriving Repr, DecidableEq

/-- `append(s, a)`: appending to the nil slice allocates a non-nil slice. -/
def GoSlice.push {α : Type} : GoSlice α → α → GoSlice α
  | .nil, a => .mk [a]
  | .mk l, a => .mk (l ++ [a])

/-- `encoding/json` on a slice: the nil slice serialises as `null`, a non-nil
slice as a JSON array of its elements. -/
def encodeSliceJson {α : Type} (f : α → Json) : GoSlice α → Json
  | .nil => .null
  | .mk l => .arr (l.map f)

/-- The struct-tag encoding of a `Book` row. -/
def encodeBook (b : Book) : Json :=
  .obj [("id", .num b.id), ("title", .str b.title), ("author", .str b.author),
        ("created_at", .tstamp b.created_at), ("updated_at", .tstamp b.updated_at)]

/-- The database state: the `books` table rows, the SERIAL sequence value the
next insert will use, and the clock tick the next `NOW()` will read.  Every
mutating statement advances the tick, so distinct statements read strictly
increasing times. -/
structure DB where
  rows : List Book
  nextId : Int
  now : Nat
deriving Repr, DecidableEq

/-- The invariants the schema and the service maintain: SERIAL ids are
positive, below the sequence value and pairwise distinct, and every row's
timestamps satisfy `created_at ≤ updated_at < now`. -/
def DB.wf (db : DB) : Prop :=
  (∀ b ∈ db.rows, 1 ≤ b.id ∧ b.id < db.nextId ∧
      b.created_at ≤ b.updated_at ∧ b.updated_at < db.now) ∧
  (db.rows.map Book.id).Nodup ∧ 1 ≤ db.nextId

instance (db : DB) : Decidable db.wf := by
  unfold DB.wf; infer_instance

/-- The comparison `ORDER BY id` sorts by. -/
def idLe (a b : Book) : Prop := a.id ≤ b.id

instance : DecidableRel idLe := fun a b => inferInstanceAs (Decidable (a.id ≤ b.id))

instance : IsTotal Book idLe := ⟨fun a b => Int.le_total a.id b.id⟩

instance : IsTrans Book idLe := ⟨fun _ _ _ => Int.le_trans⟩

/-- `SELECT ... FROM books ORDER BY id`: the rows sorted ascending by id. -/
def sortById (l : List Book) : List Book := List.insertionSort idLe l

/-- `SELECT ... WHERE id = $1`: the row with the given id, if any. -/
def dbGet (db : DB) (id : Int) : Option Book :=
  db.rows.find? (fun b => b.id == id)

/-- `INSERT INTO books (title, author) VALUES ($1,$2) RETURNING ...`: the
database assigns the next SERIAL id and sets both timestamps to `NOW()`. -/
def dbInsert (db : DB) (title author : String) : Book × DB :=
  let b : Book := ⟨db.nextId, title, author, db.now, db.now⟩
  (b, ⟨db.rows ++ [b], db.nextId + 1, db.now + 1⟩)

/-- `UPDATE books SET title=$1, author=$2, updated_at=NOW() WHERE id=$3
RETURNING ...`: rewrites the matching row in place and returns it; with no
matching row the `RETURNING` read yields no rows. -/
def dbUpdate (db : DB) (id : Int) (title author : String) : Option Book × DB :=
  let newRows := db.rows.map fun b =>
    if b.id = id then ⟨b.id, title, author, b.created_at, db.now⟩ else b
  (newRows.find? (fun b => b.id == id), ⟨newRows, db.nextId, db.now + 1⟩)

/-- `DELETE FROM books WHERE id = $1`: removes matching rows and reports the
affected-row count. -/
def dbDelete (db : DB) (id : Int) : Nat × DB :=
  (db.rows.countP (fun b => b.id == id),
   ⟨db.rows.filter (fun b => !(b.id == id)), db.nextId, db.now⟩)

/-- `sql.Result.RowsAffected` through Go's comma-error convention: a driver
that fails to report the count returns the zero value `0` alongside the
error. -/
def goRowsAffected (r : Except String Nat) : Nat × Option String :=
  match r with
  | .ok n => (n, none)
  | .error e => (0, some e)

/-- An HTTP response: status code plus the JSON body written, `none` when the
handler writes no body (the 204 path calls only `WriteHeader`). -/
structure Response where
  status : Nat
  body : Option Json
deriving Repr

/-- What a handler call produces: the response written, the server-side log
lines, the SQL statements issued to the database, and the database state
afterwards. -/
structure HResult where
  resp : Response
  log : List String
  calls : List String
  db : DB
deriving Repr

/-- `respondJSON`: write the status line and the value as JSON body. -/
def respondJSON (status : Nat) (v : Json) : Response := ⟨status, some v⟩

/-- The error envelope `{"error": msg}`. -/
def errorBody (msg : String) : Json := .obj [("error", .str msg)]

/-- `respondError`: the error envelope at the given status. -/
def respondError (status : Nat) (msg : String) : Response :=
  respondJSON status (errorBody msg)

/-- The log line `respondInternalError` emits for an underlying error. -/
def internalLog (e : String) : String := "internal error: " ++ e

/-- The response `respondInternalError` writes: a fixed generic 500 body,
independent of the underlying error. -/
def respondInternalErrorResp : Response :=
  respondError 500 "internal server error"

def listSQL : String :=
  "SELECT id, title, author, created_at, updated_at FROM books ORDER BY id"

def getSQL : String :=
  "SELECT id, title, author, created_at, updated_at FROM books WHERE id = $1"

def insertSQL : String :=
  "INSERT INTO books (title, author) VALUES ($1, $2) RETURNING id, title, author, created_at, updated_at"

def updateSQL : String :=
  "UPDATE books SET title = $1, author = $2, updated_at = NOW() WHERE id = $3 RETURNING id, title, author, created_at, updated_at"

def deleteSQL : String :=
  "DELETE FROM books WHERE id = $1"

/-- `listBooks`: query all rows in id order, accumulate them into the
initially-nil slice `books`, and respond 200 with its JSON encoding.
`qfault` is a failure of the query itself (`respondInternalError`);
`iterFault` is a driver failure after delivering some rows: `rows.Next()`
returns false early and the loop ends, and since the source never checks
`rows.Err()`, the handler still answers 200 with the rows read so far and
logs nothing — the error text is never read. -/
def listBooks (qfault : Option String) (iterFault : Option (Nat × String))
    (db : DB) : HResult :=
  match qfault with
  | some e => ⟨respondInternalErrorResp, [internalLog e], [listSQL], db⟩
  | none =>
    let fetched := match iterFault with
      | none => sortById db.rows
      | some f => (sortById db.rows).take f.1
    let books := fetched.foldl GoSlice.push GoSlice.nil
    ⟨respondJSON 200 (encodeSliceJson encodeBook books), [], [listSQL], db⟩

/-- `getBook`: `QueryRow` by id; `sql.ErrNoRows` maps to 404, any other
driver error to the opaque 500. -/
def getBook (qfault : Option String) (db : DB) (id : Int) : HResult :=
  match qfault with
  | some e => ⟨respondInternalErrorResp, [internalLog e], [getSQL], db⟩
  | none =>
    match dbGet db id with
    | none => ⟨respondError 404 "book not found", [], [getSQL], db⟩
    | some b => ⟨respondJSON 200 (encodeBook b), [], [getSQL], db⟩

/-- `createBook`: decode, validate (non-empty title and author), then insert
and respond 201 with the returned row.  Validation failures answer 400 before
any database call. -/
def createBook (qfault : Option String) (body : Body) (db : DB) : HResult :=
  match body with
  | .malformed => ⟨respondError 400 "invalid JSON", [], [], db⟩
  | .payload title author =>
    if title = "" ∨ author = "" then
      ⟨respondError 400 "title and author are required", [], [], db⟩
    else
      match qfault with
      | some e => ⟨respondInternalErrorResp, [internalLog e], [insertSQL], db⟩
      | none =>
        let r := dbInsert db title author
        ⟨respondJSON 201 (encodeBook r.1), [], [insertSQL], r.2⟩

/-- `updateBook`: decode, validate, then a single `UPDATE ... RETURNING`
statement; `sql.ErrNoRows` from the returning read maps to 404. -/
def updateBook (qfault : Option String) (body : Body) (db : DB) (id : Int) : HResult :=
  match body with
  | .malformed => ⟨respondError 400 "invalid JSON", [], [], db⟩
  | .payload title author =>
    if title = "" ∨ author = "" then
      ⟨respondError 400 "title and author are required", [], [], db⟩
    else
      match qfault with
      | some e => ⟨respondInternalErrorResp, [internalLog e], [updateSQL], db⟩
      | none =>
        let r := dbUpdate db id title author
        match r.1 with
        | none => ⟨respondError 404 "book not found", [], [updateSQL], r.2⟩
        | some b => ⟨respondJSON 200 (encodeBook b), [], [updateSQL], r.2⟩

/-- `deleteBook`: one `DELETE` statement; the `RowsAffected` error is
discarded (`affected, _ := res.RowsAffected()`), zero affected rows answer
404, otherwise 204 with no body. -/
def deleteBook (execFault : Option String) (raFault : Option String)
    (db : DB) (id : Int) : HResult :=
  match execFault with
  | some e => ⟨respondInternalErrorResp, [internalLog e], [deleteSQL], db⟩
  | none =>
    let r := dbDelete db id
    let ra := goRowsAffected (match raFault with
      | some e => .error e
      | none => .ok r.1)
    let affected := ra.1
    if affected = 0 then ⟨respondError 404 "book not found", [], [deleteSQL], r.2⟩
    else ⟨⟨204, none⟩, [], [deleteSQL], r.2⟩

/-- `strings.TrimPrefix(r.URL.Path, "/books/")`. -/
def trimBooksSlash (s : String) : String :=
  match s.toList with
  | '/' :: 'b' :: 'o' :: 'o' :: 'k' :: 's' :: '/' :: rest => String.mk rest
  | _ => s

/-- The digits of a base-10 numeral, rejecting any non-digit character. -/
def digitsToNat : List Char → Option Nat
  | [] => some 0
  | c :: cs =>
    if c.isDigit then
      (digitsToNat cs).map (fun n => (c.toNat - 48) * 10 ^ cs.length + n)
    else none

/-- `strconv.ParseInt(s, 10, 64)`: an optional sign, then one or more base-10
digits, the value constrained to the int64 range; every other input (empty
string, stray characters, out of range) errors. -/
def parseInt64 (s : String) : Option Int :=
  match s.toList with
  | [] => none
  | c :: cs =>
    let signDigits : Bool × List Char :=
      if c = '-' then (true, cs)
      else if c = '+' then (false, cs)
      else (false, c :: cs)
    match signDigits.2 with
    | [] => none
    | ds =>
      match digitsToNat ds with
      | none => none
      | some n =>
        let v : Int := if signDigits.1 then -(n : Int) else (n : Int)
        if -(2 ^ 63) ≤ v ∧ v ≤ 2 ^ 63 - 1 then some v else none

/-- `handleBookByID`: strip the `/books/` route prefix, parse the id segment
as a base-10 int64 (failure answers 400 before anything else), then dispatch
on the HTTP method, unknown methods answering 405. -/
def handleBookByID (method : String) (path : String) (qfault : Option String)
    (raFault : Option String) (body : Body) (db : DB) : HResult :=
  match parseInt64 (trimBooksSlash path) with
  | none => ⟨respondError 400 "invalid id", [], [], db⟩
  | some id =>
    match method with
    | "GET" => getBook qfault db id
    | "PUT" => updateBook qfault body db id
    | "DELETE" => deleteBook qfault raFault db id
    | _ => ⟨respondError 405 "method not allowed", [], [], db⟩

/-- `handleBooks`: the collection route dispatches GET to list and POST to
create, anything else answering 405. -/
def handleBooks (method : String) (qfault : Option String)
    (iterFault : Option (Nat × String)) (body : Body) (db : DB) : HResult :=
  match method with
  | "GET" => listBooks qfault iterFault db
  | "POST" => createBook qfault body db
  | _ => ⟨respondError 405 "method not allowed", [], [], db⟩

/-! ### Helper lemmas -/

/-- The JSON body `listBooks` writes for a given row list: Go's loop leaves
the slice nil exactly when there are no rows. -/
def goEncodeBooks (l : List Book) : Json :=
  match l with
  | [] => Json.null
  | _ => Json.arr (l.map encodeBook)

theorem foldl_push_mk {α : Type} (l acc : List α) :
    l.foldl GoSlice.push (GoSlice.mk acc) = GoSlice.mk (acc ++ l) := by
  induction l generalizing acc with
  | nil => simp
  | cons a t ih => simpa [GoSlice.push] using ih (acc ++ [a])

theorem encodeSlice_foldl (l : List Book) :
    encodeSliceJson encodeBook (l.foldl GoSlice.push GoSlice.nil) =
      goEncodeBooks l := by
  cases l with
  | nil => rfl
  | cons a t =>
    show encodeSliceJson encodeBook (t.foldl GoSlice.push (GoSlice.mk [a])) = _
    rw [foldl_push_mk]
    rfl

/-- In a table with pairwise-distinct ids, looking up a member's id finds
exactly that member. -/
theorem find?_of_nodup_mem (l : List Book) (hnd : (l.map Book.id).Nodup)
    (b : Book) (hb : b ∈ l) : l.find? (fun x => x.id == b.id) = some b := by
  induction l with
  | nil => cases hb
  | cons c cs ih =>
    rw [List.map_cons, List.nodup_cons] at hnd
    rcases List.mem_cons.mp hb with h | h
    · subst h
      simp [List.find?]
    · have hne : (c.id == b.id) = false := by
        simp only [beq_eq_false_iff_ne, ne_eq]
        intro he
        exact hnd.1 (he ▸ List.mem_map.mpr ⟨b, h, rfl⟩)
      simp only [List.find?, hne]
      exact ih hnd.2 h

/-- Looking up an id commutes with mapping an id-preserving row rewrite. -/
theorem find?_id_map (f : Book → Book) (hf : ∀ x, (f x).id = x.id)
    (l : List Book) (i : Int) :
    (l.map f).find? (fun b => b.id == i) =
      (l.find? (fun b => b.id == i)).map f := by
  rw [List.find?_map]
  have hcomp : ((fun b : Book => b.id == i) ∘ f) = fun b : Book => b.id == i := by
    funext x
    simp [Function.comp, hf x]
  rw [hcomp]

/-- Definitional reduction of `createBook` on a decoded payload. -/
theorem createBook_payload (fault : Option String) (t a : String) (db : DB) :
    createBook fault (Body.payload t a) db =
      if t = "" ∨ a = "" then
        ⟨respondError 400 "title and author are required", [], [], db⟩
      else
        match fault with
        | some e => ⟨respondInternalErrorResp, [internalLog e], [insertSQL], db⟩
        | none => ⟨respondJSON 201 (encodeBook (dbInsert db t a).1), [],
            [insertSQL], (dbInsert db t a).2⟩ := rfl

/-- Definitional reduction of `updateBook` on a decoded payload. -/
theorem updateBook_payload (fault : Option String) (t a : String) (db : DB)
    (id : Int) :
    updateBook fault (Body.payload t a) db id =
      if t = "" ∨ a = "" then
        ⟨respondError 400 "title and author are required", [], [], db⟩
      else
        match fault with
        | some e => ⟨respondInternalErrorResp, [internalLog e], [updateSQL], db⟩
        | none =>
          match (dbUpdate db id t a).1 with
          | none => ⟨respondError 404 "book not found", [], [updateSQL],
              (dbUpdate db id t a).2⟩
          | some b => ⟨respondJSON 200 (encodeBook b), [], [updateSQL],
              (dbUpdate db id t a).2⟩ := rfl

/-- Definitional reduction of `deleteBook` with a healthy driver. -/
theorem deleteBook_healthy (db : DB) (id : Int) :
    deleteBook none none db id =
      if db.rows.countP (fun b => b.id == id) = 0 then
        ⟨respondError 404 "book not found", [], [deleteSQL], (dbDelete db id).2⟩
      else ⟨⟨204, none⟩, [], [deleteSQL], (dbDelete db id).2⟩ := rfl

/-! ### Claim theorems -/

/-- C1 (amended): `listBooks` answers 200 with the persisted books in
ascending id order (the body encodes the sorted rows, a permutation of the
table, sorted by id); on an empty table it succeeds with 200 but the body is
the JSON `null` literal — Go serialises the still-nil slice as `null` — not
an empty JSON array. -/
theorem listBooks_sorted_null_on_empty (db : DB) :
    (listBooks none none db).resp.status = 200 ∧
    (listBooks none none db).resp.body = some (goEncodeBooks (sortById db.rows)) ∧
    List.Sorted idLe (sortById db.rows) ∧
    List.Perm (sortById db.rows) db.rows ∧
    (db.rows = [] → (listBooks none none db).resp.body = some Json.null) := by
  refine ⟨rfl, ?_, List.sorted_insertionSort idLe db.rows,
    List.perm_insertionSort idLe db.rows, ?_⟩
  · show some (encodeSliceJson encodeBook
      ((sortById db.rows).foldl GoSlice.push GoSlice.nil)) = _
    rw [encodeSlice_foldl]
  · intro h
    show some (encodeSliceJson encodeBook
      ((sortById db.rows).foldl GoSlice.push GoSlice.nil)) = _
    rw [h]
    rfl

/-- C1 counterexample: on the empty table, `listBooks` answers 200 but the
body it writes is the JSON `null` literal, not the empty JSON array the claim
requires. -/
theorem listBooks_empty_body_is_null :
    (listBooks none none ⟨[], 1, 1⟩).resp.status = 200 ∧
    (listBooks none none ⟨[], 1, 1⟩).resp.body = some Json.null ∧
    (listBooks none none ⟨[], 1, 1⟩).resp.body ≠ some (Json.arr []) := by
  refine ⟨rfl, rfl, fun h => ?_⟩
  rw [show (listBooks none none ⟨[], 1, 1⟩).resp.body = some Json.null from rfl] at h
  injection h with h2
  exact Json.noConfusion h2

/-- C1 witness: the amended theorem at the empty table. -/
theorem listBooks_sorted_null_on_empty_witness :
    (listBooks none none ⟨[], 1, 1⟩).resp.status = 200 ∧
    (listBooks none none ⟨[], 1, 1⟩).resp.body = some Json.null := by
  have h := listBooks_sorted_null_on_empty ⟨[], 1, 1⟩
  exact ⟨h.1, h.2.2.2.2 rfl⟩

/-- C6: a request under `/books/` whose id segment does not parse as a
base-10 integer answers 400 with the `invalid id` envelope, issues no SQL
statement, and leaves the database untouched, whatever the method, body and
driver state. -/
theorem unparseable_id_no_db_call (method path : String)
    (qf raf : Option String) (body : Body) (db : DB)
    (h : parseInt64 (trimBooksSlash path) = none) :
    (handleBookByID method path qf raf body db).resp =
      respondError 400 "invalid id" ∧
    (handleBookByID method path qf raf body db).calls = [] ∧
    (handleBookByID method path qf raf body db).db = db := by
  unfold handleBookByID
  rw [h]
  exact ⟨rfl, rfl, rfl⟩

/-- C6 witness: `GET /books/abc` answers 400 with no database call. -/
theorem unparseable_id_no_db_call_witness :
    (handleBookByID "GET" "/books/abc" none none Body.malformed ⟨[], 1, 1⟩).resp =
      respondError 400 "invalid id" ∧
    (handleBookByID "GET" "/books/abc" none none Body.malformed ⟨[], 1, 1⟩).calls = [] ∧
    (handleBookByID "GET" "/books/abc" none none Body.malformed ⟨[], 1, 1⟩).db =
      ⟨[], 1, 1⟩ :=
  unparseable_id_no_db_call "GET" "/books/abc" none none Body.malformed
    ⟨[], 1, 1⟩ (by decide)

/-- C8: in the per-id handler, id parsing precedes method dispatch: an
unparseable id answers 400 for every method (PATCH included), and a 405 can
only arise when the id segment parsed successfully. -/
theorem id_parse_precedes_method (method path : String)
    (qf raf : Option String) (body : Body) (db : DB) :
    (parseInt64 (trimBooksSlash path) = none →
      (handleBookByID method path qf raf body db).resp =
        respondError 400 "invalid id") ∧
    ((handleBookByID method path qf raf body db).resp.status = 405 →
      (parseInt64 (trimBooksSlash path)).isSome = true) := by
  cases hp : parseInt64 (trimBooksSlash path) with
  | none =>
    refine ⟨fun _ => ?_, fun h405 => ?_⟩
    · unfold handleBookByID
      rw [hp]
    · exfalso
      have h400 : (handleBookByID method path qf raf body db).resp.status = 400 := by
        unfold handleBookByID
        rw [hp]
        exact rfl
      rw [h400] at h405
      exact absurd h405 (by decide)
  | some id =>
    exact ⟨fun h => absurd h (by simp), fun _ => rfl⟩

/-- C8 witness: `PATCH /books/abc` answers 400, the parse failure taking
precedence over the unsupported method. -/
theorem id_parse_precedes_method_witness :
    (handleBookByID "PATCH" "/books/abc" none none Body.malformed
      ⟨[], 1, 1⟩).resp = respondError 400 "invalid id" :=
  (id_parse_precedes_method "PATCH" "/books/abc" none none Body.malformed
    ⟨[], 1, 1⟩).1 (by decide)

/-- C10: `deleteBook` discards the error of the affected-rows report
(`affected, _ := res.RowsAffected()`): when the DELETE statement succeeds but
the driver fails to report the count, the Go binding yields the zero value,
so the handler answers 404, never 500. -/
theorem rows_affected_error_discarded (db : DB) (id : Int) (e : String) :
    (deleteBook none (some e) db id).resp = respondError 404 "book not found" ∧
    (deleteBook none (some e) db id).resp.status ≠ 500 := by
  refine ⟨rfl, ?_⟩
  rw [show (deleteBook none (some e) db id).resp.status = 404 from rfl]
  decide

/-- C2: a Create or Update request whose body fails to decode, or decodes
with an empty title or empty author, answers 400 with one of the two
descriptive envelopes, issues no SQL statement, and leaves the stored rows
unchanged. -/
theorem invalid_body_rejected_before_repository (fault : Option String)
    (db : DB) (body : Body)
    (h : body = Body.malformed ∨
      ∃ t a, body = Body.payload t a ∧ (t = "" ∨ a = "")) :
    ((createBook fault body db).resp.status = 400 ∧
     ((createBook fault body db).resp = respondError 400 "invalid JSON" ∨
      (createBook fault body db).resp =
        respondError 400 "title and author are required") ∧
     (createBook fault body db).calls = [] ∧
     (createBook fault body db).db = db) ∧
    ∀ id : Int,
      (updateBook fault body db id).resp.status = 400 ∧
      ((updateBook fault body db id).resp = respondError 400 "invalid JSON" ∨
       (updateBook fault body db id).resp =
         respondError 400 "title and author are required") ∧
      (updateBook fault body db id).calls = [] ∧
      (updateBook fault body db id).db = db := by
  rcases h with h | ⟨t, a, h, hta⟩
  · subst h
    exact ⟨⟨rfl, Or.inl rfl, rfl, rfl⟩, fun _ => ⟨rfl, Or.inl rfl, rfl, rfl⟩⟩
  · subst h
    constructor
    · rw [createBook_payload, if_pos hta]
      exact ⟨rfl, Or.inr rfl, rfl, rfl⟩
    · intro id
      rw [updateBook_payload, if_pos hta]
      exact ⟨rfl, Or.inr rfl, rfl, rfl⟩

/-- C2 witness: Create with `{"title": "", "author": "X"}` answers 400 and
inserts nothing. -/
theorem invalid_body_rejected_before_repository_witness :
    (createBook none (Body.payload "" "X") ⟨[], 1, 1⟩).resp.status = 400 ∧
    (createBook none (Body.payload "" "X") ⟨[], 1, 1⟩).calls = [] ∧
    (createBook none (Body.payload "" "X") ⟨[], 1, 1⟩).db = ⟨[], 1, 1⟩ := by
  have h := (invalid_body_rejected_before_repository none ⟨[], 1, 1⟩
    (Body.payload "" "X") (Or.inr ⟨"", "X", rfl, Or.inl rfl⟩)).1
  exact ⟨h.1, h.2.2.1, h.2.2.2⟩

/-- C5: with the row present, Delete answers 204 with no body, a subsequent
Get of that id answers 404, and a repeated Delete answers 404; with no
matching row, Delete answers 404. -/
theorem delete_removes_then_not_found (db : DB) (id : Int) :
    ((∃ b ∈ db.rows, b.id = id) →
      (deleteBook none none db id).resp.status = 204 ∧
      (deleteBook none none db id).resp.body = none ∧
      (getBook none (deleteBook none none db id).db id).resp =
        respondError 404 "book not found" ∧
      (deleteBook none none (deleteBook none none db id).db id).resp.status =
        404) ∧
    ((∀ b ∈ db.rows, b.id ≠ id) →
      (deleteBook none none db id).resp.status = 404) := by
  have hfilter :
      ∀ x ∈ db.rows.filter (fun b => !(b.id == id)), ¬((x.id == id) = true) := by
    intro x hx
    have := (List.mem_filter.mp hx).2
    simp only [Bool.not_eq_true', beq_eq_false_iff_ne, ne_eq] at this
    simp [this]
  constructor
  · rintro ⟨b, hb, hbid⟩
    have hpos : db.rows.countP (fun b => b.id == id) ≠ 0 := by
      have : 0 < db.rows.countP (fun b => b.id == id) :=
        List.countP_pos_iff.mpr ⟨b, hb, by simp [hbid]⟩
      omega
    have hred : deleteBook none none db id =
        ⟨⟨204, none⟩, [], [deleteSQL], (dbDelete db id).2⟩ := by
      rw [deleteBook_healthy, if_neg hpos]
    refine ⟨by rw [hred], by rw [hred], ?_, ?_⟩
    · have hget : dbGet (dbDelete db id).2 id = none := by
        unfold dbGet dbDelete
        rw [List.find?_eq_none]
        exact hfilter
      rw [hred]
      show (getBook none (dbDelete db id).2 id).resp = _
      unfold getBook
      rw [hget]
    · have hcount : (dbDelete db id).2.rows.countP (fun b => b.id == id) = 0 := by
        unfold dbDelete
        rw [List.countP_eq_zero]
        exact hfilter
      rw [hred]
      show (deleteBook none none (dbDelete db id).2 id).resp.status = 404
      rw [deleteBook_healthy, if_pos hcount]
      rfl
  · intro hnone
    have hcount : db.rows.countP (fun b => b.id == id) = 0 := by
      rw [List.countP_eq_zero]
      intro x hx
      simp only [beq_iff_eq]
      exact hnone x hx
    rw [deleteBook_healthy, if_pos hcount]
    rfl

/-- C5 witness: deleting the sole row with id 1 answers 204, then Get and a
repeated Delete answer 404. -/
theorem delete_removes_then_not_found_witness :
    (deleteBook none none ⟨[⟨1, "t", "a", 0, 0⟩], 2, 1⟩ 1).resp.status = 204 ∧
    (getBook none (deleteBook none none ⟨[⟨1, "t", "a", 0, 0⟩], 2, 1⟩ 1).db
      1).resp = respondError 404 "book not found" ∧
    (deleteBook none none
      (deleteBook none none ⟨[⟨1, "t", "a", 0, 0⟩], 2, 1⟩ 1).db 1).resp.status =
      404 := by
  have h := (delete_removes_then_not_found ⟨[⟨1, "t", "a", 0, 0⟩], 2, 1⟩ 1).1
    ⟨⟨1, "t", "a", 0, 0⟩, by simp, rfl⟩
  exact ⟨h.1, h.2.2.1, h.2.2.2⟩

/-- C7 (amended): a failure of the SQL statement itself — the query, the
exec, or the returning read — in any of the five operations yields the fixed
opaque 500 response, a constant independent of the driver error, with the
underlying cause logged server-side.  Two exceptions are forced by the code:
Delete's affected-rows report error is discarded and surfaces as 404 with
nothing logged, and List's mid-iteration driver failure — visible only
through the `rows.Err()` the source never checks — surfaces as 200 with the
rows read so far and nothing logged. -/
theorem statement_failures_opaque_500 (db : DB) (e : String) (id : Int)
    (t a : String) (ht : t ≠ "") (ha : a ≠ "") (raf : Option String)
    (k : Nat) :
    (listBooks (some e) none db).resp = respondInternalErrorResp ∧
    (listBooks (some e) none db).log = [internalLog e] ∧
    (getBook (some e) db id).resp = respondInternalErrorResp ∧
    (getBook (some e) db id).log = [internalLog e] ∧
    (createBook (some e) (Body.payload t a) db).resp =
      respondInternalErrorResp ∧
    (createBook (some e) (Body.payload t a) db).log = [internalLog e] ∧
    (updateBook (some e) (Body.payload t a) db id).resp =
      respondInternalErrorResp ∧
    (updateBook (some e) (Body.payload t a) db id).log = [internalLog e] ∧
    (deleteBook (some e) raf db id).resp = respondInternalErrorResp ∧
    (deleteBook (some e) raf db id).log = [internalLog e] ∧
    (deleteBook none (some e) db id).resp.status = 404 ∧
    (deleteBook none (some e) db id).log = [] ∧
    (listBooks none (some (k, e)) db).resp.status = 200 ∧
    (listBooks none (some (k, e)) db).resp.body =
      some (goEncodeBooks ((sortById db.rows).take k)) ∧
    (listBooks none (some (k, e)) db).log = [] ∧
    respondInternalErrorResp = respondError 500 "internal server error" := by
  have hval : ¬(t = "" ∨ a = "") := fun h => h.elim ht ha
  have hc : createBook (some e) (Body.payload t a) db =
      ⟨respondInternalErrorResp, [internalLog e], [insertSQL], db⟩ := by
    rw [createBook_payload, if_neg hval]
  have hu : updateBook (some e) (Body.payload t a) db id =
      ⟨respondInternalErrorResp, [internalLog e], [updateSQL], db⟩ := by
    rw [updateBook_payload, if_neg hval]
  have hiter : (listBooks none (some (k, e)) db).resp.body =
      some (goEncodeBooks ((sortById db.rows).take k)) := by
    show some (encodeSliceJson encodeBook
      (((sortById db.rows).take k).foldl GoSlice.push GoSlice.nil)) = _
    rw [encodeSlice_foldl]
  exact ⟨rfl, rfl, rfl, rfl, by rw [hc], by rw [hc], by rw [hu], by rw [hu],
    rfl, rfl, rfl, rfl, rfl, hiter, rfl, rfl⟩

/-- C7 counterexample: two underlying driver failures whose client-visible
response is not the logged opaque 500 the claim requires.  A driver failure
after the first of two rows in List's result iteration — unchecked
`rows.Err()` — answers 200 with just the first row and logs nothing; a driver
failure reporting Delete's affected-row count answers 404 and logs nothing. -/
theorem driver_failures_visible_as_success_or_404 :
    (listBooks none (some (1, "conn lost"))
      ⟨[⟨1, "a", "x", 0, 0⟩, ⟨2, "b", "y", 0, 0⟩], 3, 1⟩).resp.status = 200 ∧
    (listBooks none (some (1, "conn lost"))
      ⟨[⟨1, "a", "x", 0, 0⟩, ⟨2, "b", "y", 0, 0⟩], 3, 1⟩).resp.body =
      some (Json.arr [encodeBook ⟨1, "a", "x", 0, 0⟩]) ∧
    (listBooks none (some (1, "conn lost"))
      ⟨[⟨1, "a", "x", 0, 0⟩, ⟨2, "b", "y", 0, 0⟩], 3, 1⟩).log = [] ∧
    (200 : Nat) ≠ 500 ∧
    (deleteBook none (some "driver: rows affected unavailable")
      ⟨[⟨1, "t", "a", 0, 0⟩], 2, 1⟩ 1).resp.status = 404 ∧
    (deleteBook none (some "driver: rows affected unavailable")
      ⟨[⟨1, "t", "a", 0, 0⟩], 2, 1⟩ 1).log = [] ∧
    (404 : Nat) ≠ 500 :=
  ⟨rfl, rfl, rfl, by decide, rfl, rfl, by decide⟩

/-- C7 witness: the amended theorem at a concrete database, error text, id,
payload and iteration cut-off. -/
theorem statement_failures_opaque_500_witness :
    (listBooks (some "conn reset") none ⟨[], 1, 1⟩).resp =
      respondInternalErrorResp ∧
    (createBook (some "conn reset") (Body.payload "t" "a")
      ⟨[], 1, 1⟩).log = [internalLog "conn reset"] ∧
    (listBooks none (some (0, "conn reset")) ⟨[], 1, 1⟩).resp.status = 200 := by
  have h := statement_failures_opaque_500 ⟨[], 1, 1⟩ "conn reset" 1 "t" "a"
    (by decide) (by decide) none 0
  exact ⟨h.1, h.2.2.2.2.2.1, h.2.2.2.2.2.2.2.2.2.2.2.2.1⟩

/-- C3: for a valid payload, Create answers 201 with the fully populated
record (server-assigned id, both timestamps set to the insert instant), and a
subsequent Get of that id answers 200 with a record whose title and author
equal the input and whose created_at equals its updated_at. -/
theorem create_then_get_roundtrip (db : DB) (t a : String)
    (hw : db.wf) (ht : t ≠ "") (ha : a ≠ "") :
    (createBook none (Body.payload t a) db).resp =
      respondJSON 201 (encodeBook ⟨db.nextId, t, a, db.now, db.now⟩) ∧
    (getBook none (createBook none (Body.payload t a) db).db db.nextId).resp =
      respondJSON 200 (encodeBook ⟨db.nextId, t, a, db.now, db.now⟩) ∧
    (⟨db.nextId, t, a, db.now, db.now⟩ : Book).title = t ∧
    (⟨db.nextId, t, a, db.now, db.now⟩ : Book).author = a ∧
    (⟨db.nextId, t, a, db.now, db.now⟩ : Book).created_at =
      (⟨db.nextId, t, a, db.now, db.now⟩ : Book).updated_at := by
  have hval : ¬(t = "" ∨ a = "") := fun h => h.elim ht ha
  have hcr : createBook none (Body.payload t a) db =
      ⟨respondJSON 201 (encodeBook (dbInsert db t a).1), [], [insertSQL],
        (dbInsert db t a).2⟩ := by
    rw [createBook_payload, if_neg hval]
  have h1 : db.rows.find? (fun x => x.id == db.nextId) = none := by
    rw [List.find?_eq_none]
    intro x hx
    simp only [beq_iff_eq]
    exact Int.ne_of_lt (hw.1 x hx).2.1
  have hfind : dbGet (dbInsert db t a).2 db.nextId =
      some ⟨db.nextId, t, a, db.now, db.now⟩ := by
    show (db.rows ++ [(⟨db.nextId, t, a, db.now, db.now⟩ : Book)]).find?
      (fun x => x.id == db.nextId) = _
    rw [List.find?_append, h1]
    simp [List.find?]
  refine ⟨by rw [hcr]; rfl, ?_, rfl, rfl, rfl⟩
  · rw [hcr]
    show (getBook none (dbInsert db t a).2 db.nextId).resp = _
    unfold getBook
    rw [hfind]

/-- C3 witness: creating `("Dune", "Herbert")` in the empty store answers 201
and Get of the assigned id 1 returns the same record, its created_at equal to
its updated_at. -/
theorem create_then_get_roundtrip_witness :
    (createBook none (Body.payload "Dune" "Herbert") ⟨[], 1, 1⟩).resp =
      respondJSON 201 (encodeBook ⟨1, "Dune", "Herbert", 1, 1⟩) ∧
    (getBook none
      (createBook none (Body.payload "Dune" "Herbert") ⟨[], 1, 1⟩).db 1).resp =
      respondJSON 200 (encodeBook ⟨1, "Dune", "Herbert", 1, 1⟩) := by
  have h := create_then_get_roundtrip ⟨[], 1, 1⟩ "Dune" "Herbert"
    (by decide) (by decide) (by decide)
  exact ⟨h.1, h.2.1⟩

/-- C4: a successful Update of an existing record answers 200 with the record
carrying the request's title and author, the same id and created_at, and an
updated_at strictly later than the previous one; the rewritten row is stored;
Update of an absent id answers 404. -/
theorem update_replaces_and_advances (db : DB) (hw : db.wf) :
    (∀ b ∈ db.rows, ∀ t a : String, t ≠ "" → a ≠ "" →
      (updateBook none (Body.payload t a) db b.id).resp =
        respondJSON 200 (encodeBook ⟨b.id, t, a, b.created_at, db.now⟩) ∧
      b.updated_at < db.now ∧
      (⟨b.id, t, a, b.created_at, db.now⟩ : Book) ∈
        (updateBook none (Body.payload t a) db b.id).db.rows) ∧
    (∀ id : Int, (∀ b ∈ db.rows, b.id ≠ id) → ∀ t a : String, t ≠ "" → a ≠ "" →
      (updateBook none (Body.payload t a) db id).resp =
        respondError 404 "book not found") := by
  constructor
  · intro b hb t a ht ha
    have hval : ¬(t = "" ∨ a = "") := fun h => h.elim ht ha
    have hf : ∀ x : Book, ((fun x : Book =>
        if x.id = b.id then (⟨x.id, t, a, x.created_at, db.now⟩ : Book) else x)
          x).id = x.id := by
      intro x
      by_cases h : x.id = b.id <;> simp [h]
    have hfind1 : (dbUpdate db b.id t a).1 =
        some ⟨b.id, t, a, b.created_at, db.now⟩ := by
      simp only [dbUpdate]
      rw [find?_id_map _ hf, find?_of_nodup_mem db.rows hw.2.1 b hb]
      simp
    have hupd : updateBook none (Body.payload t a) db b.id =
        ⟨respondJSON 200 (encodeBook ⟨b.id, t, a, b.created_at, db.now⟩), [],
          [updateSQL], (dbUpdate db b.id t a).2⟩ := by
      rw [updateBook_payload, if_neg hval, hfind1]
    refine ⟨by rw [hupd], (hw.1 b hb).2.2.2, ?_⟩
    rw [hupd]
    show (⟨b.id, t, a, b.created_at, db.now⟩ : Book) ∈ (dbUpdate db b.id t a).2.rows
    simp only [dbUpdate]
    have hfb : (⟨b.id, t, a, b.created_at, db.now⟩ : Book) =
        (fun x : Book =>
          if x.id = b.id then (⟨x.id, t, a, x.created_at, db.now⟩ : Book) else x)
          b := by
      simp
    rw [hfb]
    exact List.mem_map_of_mem _ hb
  · intro id hnone t a ht ha
    have hval : ¬(t = "" ∨ a = "") := fun h => h.elim ht ha
    have hf : ∀ x : Book, ((fun x : Book =>
        if x.id = id then (⟨x.id, t, a, x.created_at, db.now⟩ : Book) else x)
          x).id = x.id := by
      intro x
      by_cases h : x.id = id <;> simp [h]
    have hfind1 : (dbUpdate db id t a).1 = none := by
      simp only [dbUpdate]
      rw [find?_id_map _ hf]
      have hn : db.rows.find? (fun x => x.id == id) = none := by
        rw [List.find?_eq_none]
        intro x hx
        simp only [beq_iff_eq]
        exact hnone x hx
      rw [hn]
      rfl
    rw [updateBook_payload, if_neg hval, hfind1]

/-- C4 witness: updating the stored row id 1 to `("x", "y")` answers 200 with
the same id and created_at and with updated_at advanced from 0 to 1. -/
theorem update_replaces_and_advances_witness :
    (updateBook none (Body.payload "x" "y")
      ⟨[⟨1, "t", "a", 0, 0⟩], 2, 1⟩ 1).resp =
      respondJSON 200 (encodeBook ⟨1, "x", "y", 0, 1⟩) := by
  have h := (update_replaces_and_advances ⟨[⟨1, "t", "a", 0, 0⟩], 2, 1⟩
    (by decide)).1 ⟨1, "t", "a", 0, 0⟩ (List.mem_cons_self _ _) "x" "y"
    (by decide) (by decide)
  exact h.1

/-- C9: the path parser accepts negative and zero id segments (the segments
`-5` and `0` of `/books/` paths parse as base-10 integers), so such requests issue the SELECT
and answer 404 from the repository, not 400. -/
theorem nonpositive_id_reaches_repository (db : DB) (hw : db.wf) :
    parseInt64 "-5" = some (-5) ∧ parseInt64 "0" = some 0 ∧
    (handleBookByID "GET" "/books/-5" none none Body.malformed db).resp =
      respondError 404 "book not found" ∧
    (handleBookByID "GET" "/books/-5" none none Body.malformed db).calls =
      [getSQL] ∧
    (handleBookByID "GET" "/books/0" none none Body.malformed db).resp =
      respondError 404 "book not found" ∧
    (handleBookByID "GET" "/books/0" none none Body.malformed db).calls =
      [getSQL] := by
  have hneg : ∀ id : Int, id ≤ 0 → dbGet db id = none := by
    intro id hid
    unfold dbGet
    rw [List.find?_eq_none]
    intro x hx
    simp only [beq_iff_eq]
    intro he
    have h1 : 1 ≤ x.id := (hw.1 x hx).1
    omega
  have hg : ∀ id : Int, id ≤ 0 → getBook none db id =
      ⟨respondError 404 "book not found", [], [getSQL], db⟩ := by
    intro id hid
    unfold getBook
    rw [hneg id hid]
  have h5 : handleBookByID "GET" "/books/-5" none none Body.malformed db =
      getBook none db (-5) := rfl
  have h0 : handleBookByID "GET" "/books/0" none none Body.malformed db =
      getBook none db 0 := rfl
  refine ⟨by decide, by decide, ?_, ?_, ?_, ?_⟩
  · rw [h5, hg (-5) (by decide)]
  · rw [h5, hg (-5) (by decide)]
  · rw [h0, hg 0 (by decide)]
  · rw [h0, hg 0 (by decide)]

/-- C9 witness: against a store holding one row with id 1, a GET whose id
segment is `-5` answers 404 after issuing the SELECT. -/
theorem nonpositive_id_reaches_repository_witness :
    (handleBookByID "GET" "/books/-5" none none Body.malformed
      ⟨[⟨1, "t", "a", 0, 0⟩], 2, 1⟩).resp = respondError 404 "book not found" ∧
    (handleBookByID "GET" "/books/-5" none none Body.malformed
      ⟨[⟨1, "t", "a", 0, 0⟩], 2, 1⟩).calls = [getSQL] := by
  have h := nonpositive_id_reaches_repository ⟨[⟨1, "t", "a", 0, 0⟩], 2, 1⟩
    (by decide)
  exact ⟨h.2.2.1, h.2.2.2.1⟩

end Vera
